import Mathlib

/-!
Refund query (`payment/refund_query.go`).

A shallow embedding of the refund-query operation of the payment package:
the query condition `RefundQuery`, the signed request `refundQuery` built by
`RefundQuery.prepare`, the decoded response `refundQueryResponse`, and the
orchestration `RefundQuery.Query`.

The collaborators that live outside the file (`util.RandomString`,
`util.SignByMD5`, `util.PostXML`, the XML tokenizer and the package constant
`baseURL`) are fields of `Env`, so every statement quantifies over all their
behaviours.  Every call to a collaborator and every write to standard output
is recorded, in program order, in the `events` of a `Run`.
-/

set_option autoImplicit false

namespace Payment

/-! ## Errors, maps, events -/

/-- Go `error` values that the operation can return, by origin. -/
inductive GoError where
  /-- A value built by `errors.New` inside the package. -/
  | errorsNew (msg : String)
  /-- The gateway answered with `return_code` other than SUCCESS. -/
  | TransportFailure (message : String)
  /-- The gateway answered with `result_code` other than SUCCESS. -/
  | BusinessFailure (errCode : String) (errCodeDes : String)
  /-- The `*strconv.NumError` of `ParseInt`: the text it was given, and whether
  the failure is `ErrRange` (otherwise it is `ErrSyntax`). -/
  | numError (num : String) (outOfRange : Bool)
  /-- An error value produced by a collaborator (signer, transport, tokenizer). -/
  | foreign (msg : String)
  deriving DecidableEq, Repr

/-- A Go `map[string]string`, kept as an association list with distinct keys. -/
abbrev StrMap := List (String × String)

/-- The value stored under `k`, if any (`v, ok := m[k]`). -/
def StrMap.get? : StrMap → String → Option String
  | [], _ => none
  | (k, v) :: rest, key => if k = key then some v else StrMap.get? rest key

/-- The assignment `m[k] = v`: overwrite the entry of `k`, or add one. -/
def StrMap.set : StrMap → String → String → StrMap
  | [], key, val => [(key, val)]
  | (k, v) :: rest, key, val =>
    if k = key then (k, val) :: rest else (k, v) :: StrMap.set rest key val

/-- The child elements of an XML root, in document order: local name and
character data of each. -/
abbrev XMLDoc := List (String × String)

/-- The character data of the last child element called `name`, if there is one. -/
def XMLDoc.lastText : XMLDoc → String → Option String
  | [], _ => none
  | (n, t) :: rest, name =>
    match XMLDoc.lastText rest name with
    | some v => some v
    | none => if n = name then some t else none

/-! ## Data model -/

/-- The query condition (`type RefundQuery struct`). -/
structure RefundQuery where
  AppID : String
  MchID : String
  SignType : String
  NonceStr : String
  Sign : String
  OutRefundNo : String
  RefundID : String
  deriving DecidableEq, Repr

/-- The signed request (`type refundQuery struct`): the embedded condition and
the three outer fields `Sign`, `NonceStr`, `SignType`, which shadow the
embedded fields of the same name.  `XMLName` only fixes the root name `xml`. -/
structure refundQuery where
  RefundQuery : RefundQuery
  Sign : String
  NonceStr : String
  SignType : String
  deriving DecidableEq, Repr

/-- The type `RefundStatusType`: a named string type. -/
abbrev RefundStatusType := String

def RefundStatusSuccess : RefundStatusType := "SUCCESS"
def RefundStatusChange : RefundStatusType := "CHANGE"
def RefundStatusClose : RefundStatusType := "REFUNDCLOSE"
def RefundStatusProcessing : RefundStatusType := "PROCESSING"

/-- The result handed to the caller (`type RefundQueryResponse struct`). -/
structure RefundQueryResponse where
  AppID : String
  MchID : String
  NonceStr : String
  Sign : String
  TransactionID : String
  OutTradeNo : String
  RefundID : String
  OutRefundNo : String
  TotalFee : Int
  RefundFee : Int
  RefundStatus : RefundStatusType
  SuccessTime : String
  ReceiveAccount : String
  deriving DecidableEq, Repr

/-- Modelled from the spec: the embedded type `response`, declared in another
file of the package.  It holds the two-tier status envelope of the spec
(sections 3 and 6): `return_code`, `return_msg`, `result_code`, `err_code`,
`err_code_des`. -/
structure response where
  ReturnCode : String
  ReturnMsg : String
  ResultCode : String
  ErrCode : String
  ErrCodeDes : String
  deriving DecidableEq, Repr

/-- Modelled from the spec: the method `Check` of `response`, declared in
another file of the package (spec section 4.5): a `return_code` other than
SUCCESS fails with the gateway message and the business status is not
inspected; otherwise a `result_code` other than SUCCESS fails with the error
code and its description; otherwise there is no error. -/
def response.Check (res : response) : Option GoError :=
  if res.ReturnCode ≠ "SUCCESS" then
    some (GoError.TransportFailure res.ReturnMsg)
  else if res.ResultCode ≠ "SUCCESS" then
    some (GoError.BusinessFailure res.ErrCode res.ErrCodeDes)
  else
    none

/-- The decode target (`type refundQueryResponse struct`): both embedded. -/
structure refundQueryResponse where
  response : response
  RefundQueryResponse : RefundQueryResponse
  deriving DecidableEq, Repr

/-- The Go zero value that `&refundQueryResponse{}` allocates. -/
def refundQueryResponse.zero : refundQueryResponse :=
  ⟨⟨"", "", "", "", ""⟩, ⟨"", "", "", "", "", "", "", "", 0, 0, "", "", ""⟩⟩

/-- The calls to collaborators and the writes to standard output, as `Query`
performs them. -/
inductive Event where
  | RandomString (n : Nat)
  | SignByMD5 (data : StrMap) (key : String)
  | PostXML (url : String) (data : refundQuery)
  | Println (line : String)
  | Unmarshal (data : String)
  | Check (res : response)
  deriving DecidableEq, Repr

/-- What a Go function returned (`value`, `err`) and the events it caused. -/
structure Run (α : Type) where
  value : α
  err : Option GoError
  events : List Event
  deriving DecidableEq, Repr

/-- The collaborators of the file.  `xmlElements` is the tokenizer of
`encoding/xml`: the child elements it reads from the bytes, and the syntax
error that stopped it, if one did. -/
structure Env where
  baseURL : String
  RandomString : Nat → String
  SignByMD5 : StrMap → String → String × Option GoError
  PostXML : String → refundQuery → String × Option GoError
  xmlElements : String → XMLDoc × Option GoError

def refundQueryAPI : String := "/pay/refundquery"

/-! ## Building the request -/

/-- The error `prepare` creates when neither identifier is given. -/
def errNoIdentifier : GoError :=
  GoError.errorsNew "out_refund_no与refund_id必须二选一"

/-- The method `prepare` (预处理): build the signed request of a condition.
Field selectors follow Go: `result.AppID`, `result.MchID`, `result.OutRefundNo`
and `result.RefundID` are promoted from the embedded condition, while
`result.NonceStr` and `result.SignType` are the outer fields. -/
def RefundQuery.prepare (env : Env) (s : RefundQuery) (key : String) : Run refundQuery :=
  let result : refundQuery := ⟨s, "", env.RandomString 32, "MD5"⟩
  let signData : StrMap :=
    (((StrMap.set [] "appid" result.RefundQuery.AppID).set
      "mch_id" result.RefundQuery.MchID).set
      "nonce_str" result.NonceStr).set
      "sign_type" result.SignType
  if result.RefundQuery.OutRefundNo = "" ∧ result.RefundQuery.RefundID = "" then
    ⟨result, some errNoIdentifier, [Event.RandomString 32]⟩
  else
    let signData :=
      if result.RefundQuery.OutRefundNo ≠ "" then
        signData.set "out_refund_no" result.RefundQuery.OutRefundNo
      else signData
    let signData :=
      if result.RefundQuery.RefundID ≠ "" then
        signData.set "refund_id" result.RefundQuery.RefundID
      else signData
    let signed := env.SignByMD5 signData key
    ⟨{ result with Sign := signed.1 }, signed.2,
      [Event.RandomString 32, Event.SignByMD5 signData key]⟩

/-- A single entry, kept only when its text is not empty. -/
def omitempty (name : String) (text : String) : XMLDoc :=
  if text = "" then [] else [(name, text)]

/-- The characters XML allows (`isInCharacterRange` of `encoding/xml`). -/
def isInCharacterRange (c : Char) : Bool :=
  let n := c.toNat
  n = 0x09 || n = 0x0A || n = 0x0D || (0x20 ≤ n && n ≤ 0xD7FF)
    || (0xE000 ≤ n && n ≤ 0xFFFD) || (0x10000 ≤ n && n ≤ 0x10FFFF)

/-- The character data a reader gets back from what `encoding/xml` writes for
a string (`EscapeText`): the markup characters, tab, newline and carriage
return are written as references and read back unchanged, and every character
XML forbids is written as U+FFFD.  Strings are sequences of Unicode
characters here, so the field texts are taken to be valid UTF-8. -/
def xmlText (s : String) : String :=
  String.mk (s.data.map fun c => if isInCharacterRange c then c else Char.ofNat 0xFFFD)

/-- An `omitempty` element: left out when the field is empty, written with
the text of the field otherwise. -/
def omitemptyElement (name : String) (field : String) : XMLDoc :=
  if field = "" then [] else [(name, xmlText field)]

/-- The child elements `encoding/xml` writes for a `refundQuery` when
`util.PostXML` marshals it, from the struct tags: the fields of the embedded
condition that the outer struct does not shadow (`appid`, `mch_id`,
`out_refund_no`, `refund_id`), then the outer `sign`, `nonce_str` and
`sign_type`.  The embedded `sign_type`, `nonce_str` and `sign` are shadowed by
the shallower fields and never written.  Each element carries `xmlText` of its
field. -/
def refundQuery.xmlElements (q : refundQuery) : XMLDoc :=
  [("appid", xmlText q.RefundQuery.AppID), ("mch_id", xmlText q.RefundQuery.MchID)]
    ++ omitemptyElement "out_refund_no" q.RefundQuery.OutRefundNo
    ++ omitemptyElement "refund_id" q.RefundQuery.RefundID
    ++ [("sign", xmlText q.Sign), ("nonce_str", xmlText q.NonceStr)]
    ++ omitemptyElement "sign_type" q.SignType

/-! ## Decoding the response -/

/-- The white space of `unicode.IsSpace`, which `strings.TrimSpace` removes. -/
def isSpace (c : Char) : Bool :=
  let n := c.toNat
  (9 ≤ n && n ≤ 13) || n = 32 || n = 0x85 || n = 0xA0 || n = 0x1680
    || (0x2000 ≤ n && n ≤ 0x200A) || n = 0x2028 || n = 0x2029 || n = 0x202F
    || n = 0x205F || n = 0x3000

/-- The function `strings.TrimSpace`. -/
def TrimSpace (s : String) : String :=
  String.mk ((s.data.dropWhile isSpace).reverse.dropWhile isSpace).reverse

/-- Why a run of `strconv.ParseUint` stopped early. -/
inductive NumFailure where
  | malformed
  | outOfRange
  deriving DecidableEq, Repr

/-- The digit loop of `strconv.ParseUint(s, 10, 64)`: a character that is not
a decimal digit is a syntax error; a value that leaves 64 bits is a range
error, reported where the loop meets it. -/
def parseUintLoop : Nat → List Char → Except NumFailure Nat
  | n, [] => Except.ok n
  | n, c :: cs =>
    if 48 ≤ c.toNat ∧ c.toNat ≤ 57 then
      if n ≥ (2 ^ 64 - 1) / 10 + 1 then Except.error NumFailure.outOfRange
      else if n * 10 + (c.toNat - 48) > 2 ^ 64 - 1 then Except.error NumFailure.outOfRange
      else parseUintLoop (n * 10 + (c.toNat - 48)) cs
    else Except.error NumFailure.malformed

/-- The call `strconv.ParseUint(s, 10, 64)` on the characters of `s`. -/
def ParseUint : List Char → Except NumFailure Nat
  | [] => Except.error NumFailure.malformed
  | cs => parseUintLoop 0 cs

/-- The call `strconv.ParseInt(s, 10, 64)`: an optional sign, then decimal
digits, within the range of a 64-bit `int`.  The error names the text `s`. -/
def ParseInt (s : String) : Except GoError Int :=
  match s.data with
  | [] => Except.error (GoError.numError s false)
  | c :: cs =>
    let neg : Bool := c = '-'
    let digits := if c = '+' ∨ c = '-' then cs else c :: cs
    match ParseUint digits with
    | Except.error NumFailure.malformed => Except.error (GoError.numError s false)
    | Except.error NumFailure.outOfRange => Except.error (GoError.numError s true)
    | Except.ok un =>
      if neg = false ∧ un ≥ 2 ^ 63 then Except.error (GoError.numError s true)
      else if neg = true ∧ un > 2 ^ 63 then Except.error (GoError.numError s true)
      else if neg then Except.ok (-(un : Int))
      else Except.ok (un : Int)

/-- How `encoding/xml` copies element text into an `int` field: empty text
is 0, anything else goes through `strconv.ParseInt` after trimming.  The `int`
of the fee fields is taken to be 64 bits wide. -/
def copyValueInt (src : String) : Except GoError Int :=
  if src.length = 0 then Except.ok 0
  else ParseInt (TrimSpace src)

/-- The fields of the decode target that an XML element can fill: those of
`response` and those of `RefundQueryResponse`. -/
inductive Field where
  | ReturnCode | ReturnMsg | ResultCode | ErrCode | ErrCodeDes
  | AppID | MchID | NonceStr | Sign | TransactionID | OutTradeNo
  | RefundID | OutRefundNo | TotalFee | RefundFee | RefundStatus
  | SuccessTime | ReceiveAccount
  deriving DecidableEq, Repr

/-- The element name in the `xml` struct tag of each field. -/
def Field.tag : Field → String
  | Field.ReturnCode => "return_code"
  | Field.ReturnMsg => "return_msg"
  | Field.ResultCode => "result_code"
  | Field.ErrCode => "err_code"
  | Field.ErrCodeDes => "err_code_des"
  | Field.AppID => "appid"
  | Field.MchID => "mch_id"
  | Field.NonceStr => "nonce_str"
  | Field.Sign => "sign"
  | Field.TransactionID => "transaction_id"
  | Field.OutTradeNo => "out_trade_no"
  | Field.RefundID => "refund_id_0"
  | Field.OutRefundNo => "out_refund_no_0"
  | Field.TotalFee => "total_fee"
  | Field.RefundFee => "refund_fee"
  | Field.RefundStatus => "refund_status_0"
  | Field.SuccessTime => "refund_success_time_0"
  | Field.ReceiveAccount => "refund_recv_accout_0"

/-- The fields in declaration order: the embedded `response` first. -/
def allFields : List Field :=
  [Field.ReturnCode, Field.ReturnMsg, Field.ResultCode, Field.ErrCode, Field.ErrCodeDes,
   Field.AppID, Field.MchID, Field.NonceStr, Field.Sign, Field.TransactionID,
   Field.OutTradeNo, Field.RefundID, Field.OutRefundNo, Field.TotalFee, Field.RefundFee,
   Field.RefundStatus, Field.SuccessTime, Field.ReceiveAccount]

/-- The field whose tag names the element: the first one, in declaration
order, whose tag is the local name of the element. -/
def fieldNamed (name : String) : Option Field :=
  allFields.find? (fun f => f.tag = name)

/-- Element text stored into one field: copied as it is into a string
field, parsed into an `int` field. -/
def refundQueryResponse.store (r : refundQueryResponse) (f : Field) (text : String) :
    Except GoError refundQueryResponse :=
  let e := r.response
  let q := r.RefundQueryResponse
  match f with
  | Field.ReturnCode => Except.ok { r with response := { e with ReturnCode := text } }
  | Field.ReturnMsg => Except.ok { r with response := { e with ReturnMsg := text } }
  | Field.ResultCode => Except.ok { r with response := { e with ResultCode := text } }
  | Field.ErrCode => Except.ok { r with response := { e with ErrCode := text } }
  | Field.ErrCodeDes => Except.ok { r with response := { e with ErrCodeDes := text } }
  | Field.AppID => Except.ok { r with RefundQueryResponse := { q with AppID := text } }
  | Field.MchID => Except.ok { r with RefundQueryResponse := { q with MchID := text } }
  | Field.NonceStr => Except.ok { r with RefundQueryResponse := { q with NonceStr := text } }
  | Field.Sign => Except.ok { r with RefundQueryResponse := { q with Sign := text } }
  | Field.TransactionID =>
    Except.ok { r with RefundQueryResponse := { q with TransactionID := text } }
  | Field.OutTradeNo => Except.ok { r with RefundQueryResponse := { q with OutTradeNo := text } }
  | Field.RefundID => Except.ok { r with RefundQueryResponse := { q with RefundID := text } }
  | Field.OutRefundNo =>
    Except.ok { r with RefundQueryResponse := { q with OutRefundNo := text } }
  | Field.TotalFee =>
    match copyValueInt text with
    | Except.ok n => Except.ok { r with RefundQueryResponse := { q with TotalFee := n } }
    | Except.error err => Except.error err
  | Field.RefundFee =>
    match copyValueInt text with
    | Except.ok n => Except.ok { r with RefundQueryResponse := { q with RefundFee := n } }
    | Except.error err => Except.error err
  | Field.RefundStatus =>
    Except.ok { r with RefundQueryResponse := { q with RefundStatus := text } }
  | Field.SuccessTime =>
    Except.ok { r with RefundQueryResponse := { q with SuccessTime := text } }
  | Field.ReceiveAccount =>
    Except.ok { r with RefundQueryResponse := { q with ReceiveAccount := text } }

/-- One child element stored into the decode target; an element that no
struct tag names is skipped. -/
def refundQueryResponse.setElement (r : refundQueryResponse) (name text : String) :
    Except GoError refundQueryResponse :=
  match fieldNamed name with
  | some f => r.store f text
  | none => Except.ok r

/-- The child elements stored one after the other, stopping at the first
field that cannot be filled. -/
def decodeFrom : refundQueryResponse → XMLDoc → Except GoError refundQueryResponse
  | r, [] => Except.ok r
  | r, (name, text) :: rest =>
    match r.setElement name text with
    | Except.ok r1 => decodeFrom r1 rest
    | Except.error err => Except.error err

/-- The fields of a fresh `refundQueryResponse` filled from a document. -/
def decodeDoc (doc : XMLDoc) : Except GoError refundQueryResponse :=
  decodeFrom refundQueryResponse.zero doc

/-- The call `xml.Unmarshal(resData, &result)` on a fresh
`refundQueryResponse`: the elements are stored as the tokenizer reads them, so
a field error comes before a later syntax error. -/
def Unmarshal (env : Env) (resData : String) : Except GoError refundQueryResponse :=
  match decodeDoc (env.xmlElements resData).1 with
  | Except.error err => Except.error err
  | Except.ok r =>
    match (env.xmlElements resData).2 with
    | some err => Except.error err
    | none => Except.ok r

/-! ## The query -/

/-- The method `Query` (查询退款订单). -/
def RefundQuery.Query (env : Env) (s : RefundQuery) (key : String) :
    Run (Option RefundQueryResponse) :=
  let p := s.prepare env key
  match p.err with
  | some err => ⟨none, some err, p.events⟩
  | none =>
    let url := env.baseURL ++ refundQueryAPI
    let posted := env.PostXML url p.value
    let resData := posted.1
    let events := p.events ++ [Event.PostXML url p.value, Event.Println resData]
    match posted.2 with
    | some err => ⟨none, some err, events⟩
    | none =>
      let events := events ++ [Event.Unmarshal resData]
      match Unmarshal env resData with
      | Except.error err => ⟨none, some err, events⟩
      | Except.ok result =>
        let events := events ++ [Event.Check result.response]
        match result.response.Check with
        | some err => ⟨none, some err, events⟩
        | none => ⟨some result.RefundQueryResponse, none, events⟩

/-! ## The documented sample responses and a test gateway -/

/-- The sample response of a query by order (two refund records). -/
def sampleByOrder : XMLDoc :=
  [("appid", "000000"), ("cash_fee", "6"), ("mch_id", "000000"),
   ("nonce_str", "GwUbVYPcPZz0T8Lg"),
   ("out_refund_no_0", "20190705171118247841"),
   ("out_refund_no_1", "20190705171048982976"),
   ("out_trade_no", "20190705170959530641"),
   ("refund_account_0", "REFUND_SOURCE_UNSETTLED_FUNDS"),
   ("refund_account_1", "REFUND_SOURCE_UNSETTLED_FUNDS"),
   ("refund_channel_0", "ORIGINAL"), ("refund_channel_1", "ORIGINAL"),
   ("refund_count", "2"), ("refund_fee", "4"),
   ("refund_fee_0", "1"), ("refund_fee_1", "3"),
   ("refund_id_0", "50000201152019070510323842871"),
   ("refund_id_1", "50000201152019070510395660782"),
   ("refund_recv_accout_0", "工商银行借记卡3234"),
   ("refund_recv_accout_1", "工商银行借记卡3234"),
   ("refund_status_0", "SUCCESS"), ("refund_status_1", "SUCCESS"),
   ("refund_success_time_0", "2019-07-05 17:15:51"),
   ("refund_success_time_1", "2019-07-05 17:15:19"),
   ("result_code", "SUCCESS"), ("return_code", "SUCCESS"), ("return_msg", "OK"),
   ("sign", "000000"), ("total_fee", "6"),
   ("transaction_id", "4200000289201907058815070594")]

/-- The sample response of a query by refund number (one refund record). -/
def sampleByRefundNo : XMLDoc :=
  [("appid", "000000"), ("cash_fee", "6"), ("mch_id", "000000"),
   ("nonce_str", "ORXm2pdxYtc2VoUd"),
   ("out_refund_no_0", "20190705171118247841"),
   ("out_trade_no", "20190705170959530641"),
   ("refund_account_0", "REFUND_SOURCE_UNSETTLED_FUNDS"),
   ("refund_channel_0", "ORIGINAL"),
   ("refund_count", "1"), ("refund_fee", "1"), ("refund_fee_0", "1"),
   ("refund_id_0", "50000201152019070510323842871"),
   ("refund_recv_accout_0", "工商银行借记卡3234"),
   ("refund_status_0", "SUCCESS"),
   ("refund_success_time_0", "2019-07-05 17:15:51"),
   ("result_code", "SUCCESS"), ("return_code", "SUCCESS"), ("return_msg", "OK"),
   ("sign", "000000"), ("total_fee", "6"),
   ("transaction_id", "4200000289201907058815070594")]

/-- A gateway that answers every request with the document `doc`: a signer
that always succeeds, a transport that always delivers, a fixed nonce. -/
def gatewayAnswering (doc : XMLDoc) : Env where
  baseURL := "https://api.mch.weixin.qq.com"
  RandomString := fun n => String.mk (List.replicate n 'n')
  SignByMD5 := fun _ _ => ("0123456789ABCDEF0123456789ABCDEF", none)
  PostXML := fun _ _ => ("<xml/>", none)
  xmlElements := fun _ => (doc, none)

/-- A gateway whose transport fails. -/
def gatewayUnreachable : Env where
  baseURL := "https://api.mch.weixin.qq.com"
  RandomString := fun n => String.mk (List.replicate n 'n')
  SignByMD5 := fun _ _ => ("0123456789ABCDEF0123456789ABCDEF", none)
  PostXML := fun _ _ => ("", some (GoError.foreign "dial tcp: i/o timeout"))
  xmlElements := fun _ => ([], some (GoError.foreign "EOF"))

/-- A condition that names a refund by the merchant refund number. -/
def byOutRefundNo : RefundQuery :=
  ⟨"wx0000", "1900000109", "", "", "", "20190705171118247841", ""⟩

/-- A condition that names a refund by both identifiers. -/
def byBoth : RefundQuery :=
  ⟨"wx0000", "1900000109", "", "", "", "20190705171118247841",
    "50000201152019070510323842871"⟩

/-- A condition that names no refund. -/
def byNothing : RefundQuery :=
  ⟨"wx0000", "1900000109", "", "", "", "", ""⟩



/-- A condition that asks for HMAC-SHA256 signing. -/
def byOutRefundNoHMAC : RefundQuery :=
  ⟨"wx0000", "1900000109", "HMAC-SHA256", "", "", "20190705171118247841", ""⟩

/-- A condition whose `AppID` was left empty. -/
def withoutAppID : RefundQuery :=
  ⟨"", "1900000109", "", "", "", "20190705171118247841", ""⟩

/-- A condition whose refund number holds the control character U+0001. -/
def byControlChar : RefundQuery :=
  ⟨"wx0000", "1900000109", "", "", "", "a\x01b", ""⟩

/-- A successful response whose refund status is none of the four constants. -/
def sampleFrozen : XMLDoc :=
  [("return_code", "SUCCESS"), ("result_code", "SUCCESS"),
   ("refund_id_0", "50000201152019070510323842871"), ("refund_fee", "1"),
   ("refund_status_0", "FROZEN")]

/-! ## Vocabulary of the statements -/

/-- The address `Query` posts to. -/
def queryURL (env : Env) : String := env.baseURL ++ refundQueryAPI

/-- What the transport answers to the request that `prepare` built. -/
def transportReply (env : Env) (s : RefundQuery) (key : String) : String × Option GoError :=
  env.PostXML (queryURL env) (s.prepare env key).value

/-- The request was built, the transport delivered it, and the answer is the
well-formed document `doc`. -/
def GatewayReplies (env : Env) (s : RefundQuery) (key : String) (doc : XMLDoc) : Prop :=
  (s.prepare env key).err = none ∧ (transportReply env s key).2 = none
    ∧ env.xmlElements (transportReply env s key).1 = (doc, none)

instance (env : Env) (s : RefundQuery) (key : String) (doc : XMLDoc) :
    Decidable (GatewayReplies env s key doc) := by
  unfold GatewayReplies
  exact inferInstance

/-- The parameter set `prepare` assembles for a condition that names a refund:
the four fixed entries, then each identifier that is not empty. -/
def signedParams (s : RefundQuery) (nonce : String) : StrMap :=
  [("appid", s.AppID), ("mch_id", s.MchID), ("nonce_str", nonce), ("sign_type", "MD5")]
    ++ omitempty "out_refund_no" s.OutRefundNo ++ omitempty "refund_id" s.RefundID

/-- The lines written to standard output, in order. -/
def stdoutLines : List Event → List String
  | [] => []
  | Event.Println line :: rest => line :: stdoutLines rest
  | _ :: rest => stdoutLines rest

/-- The number of transport calls. -/
def transportCalls : List Event → Nat
  | [] => 0
  | Event.PostXML _ _ :: rest => transportCalls rest + 1
  | _ :: rest => transportCalls rest

/-- The lengths of the nonces asked for, in order. -/
def nonceCalls : List Event → List Nat
  | [] => []
  | Event.RandomString n :: rest => n :: nonceCalls rest
  | _ :: rest => nonceCalls rest

/-- The parameter sets handed to the signer, in order. -/
def signerCalls : List Event → List (StrMap × String)
  | [] => []
  | Event.SignByMD5 data key :: rest => (data, key) :: signerCalls rest
  | _ :: rest => signerCalls rest

/-! ## Lemmas on the decoder -/

/-- A string field of the decode target ends up holding the text of the last
element its tag names, or what it held before when there is none. -/
theorem decodeFrom_string_field (f : refundQueryResponse → String) (name : String)
    (step : ∀ (r r1 : refundQueryResponse) (n t : String),
      r.setElement n t = Except.ok r1 → f r1 = if n = name then t else f r) :
    ∀ (doc : XMLDoc) (r0 r : refundQueryResponse),
      decodeFrom r0 doc = Except.ok r → f r = (doc.lastText name).getD (f r0) := by
  intro doc
  induction doc with
  | nil =>
    intro r0 r h
    simp only [decodeFrom, Except.ok.injEq] at h
    simp [XMLDoc.lastText, h]
  | cons e rest ih =>
    intro r0 r h
    obtain ⟨n, t⟩ := e
    simp only [decodeFrom] at h
    cases hs : r0.setElement n t with
    | error err => simp [hs] at h
    | ok r1 =>
      simp only [hs] at h
      have h1 := ih r1 r h
      have h2 := step r0 r1 n t hs
      rw [h1, h2]
      simp only [XMLDoc.lastText]
      cases hl : XMLDoc.lastText rest name with
      | some v => simp
      | none => by_cases hn : n = name <;> simp [hn]

/-- The lookup `fieldNamed` finds a field exactly under its tag. -/
theorem fieldNamed_eq_some (n : String) (f : Field) :
    fieldNamed n = some f ↔ n = f.tag := by
  constructor
  · intro h
    have hp := List.find?_some h
    simp only [decide_eq_true_eq] at hp
    exact hp.symm
  · intro h
    subst h
    cases f <;> decide

/-! What storing one element does to a string field: the text is stored when
the element carries the tag of the field, and the field keeps its value
otherwise. -/

theorem setElement_RefundID (r r1 : refundQueryResponse) (n t : String)
    (h : r.setElement n t = Except.ok r1) :
    r1.RefundQueryResponse.RefundID
      = if n = "refund_id_0" then t else r.RefundQueryResponse.RefundID := by
  unfold refundQueryResponse.setElement at h
  cases hf : fieldNamed n with
  | none =>
    have hn : n ≠ "refund_id_0" := by
      intro hn
      have := (fieldNamed_eq_some n Field.RefundID).2 hn
      simp [hf] at this
    simp only [hf, Except.ok.injEq] at h
    simp [hn, h]
  | some f =>
    have hn := (fieldNamed_eq_some n f).1 hf
    simp only [hf] at h
    subst hn
    cases f <;> simp only [refundQueryResponse.store] at h <;> (try split at h) <;>
      cases h <;> simp [Field.tag]

theorem setElement_OutRefundNo (r r1 : refundQueryResponse) (n t : String)
    (h : r.setElement n t = Except.ok r1) :
    r1.RefundQueryResponse.OutRefundNo
      = if n = "out_refund_no_0" then t else r.RefundQueryResponse.OutRefundNo := by
  unfold refundQueryResponse.setElement at h
  cases hf : fieldNamed n with
  | none =>
    have hn : n ≠ "out_refund_no_0" := by
      intro hn
      have := (fieldNamed_eq_some n Field.OutRefundNo).2 hn
      simp [hf] at this
    simp only [hf, Except.ok.injEq] at h
    simp [hn, h]
  | some f =>
    have hn := (fieldNamed_eq_some n f).1 hf
    simp only [hf] at h
    subst hn
    cases f <;> simp only [refundQueryResponse.store] at h <;> (try split at h) <;>
      cases h <;> simp [Field.tag]

theorem setElement_RefundStatus (r r1 : refundQueryResponse) (n t : String)
    (h : r.setElement n t = Except.ok r1) :
    r1.RefundQueryResponse.RefundStatus
      = if n = "refund_status_0" then t else r.RefundQueryResponse.RefundStatus := by
  unfold refundQueryResponse.setElement at h
  cases hf : fieldNamed n with
  | none =>
    have hn : n ≠ "refund_status_0" := by
      intro hn
      have := (fieldNamed_eq_some n Field.RefundStatus).2 hn
      simp [hf] at this
    simp only [hf, Except.ok.injEq] at h
    simp [hn, h]
  | some f =>
    have hn := (fieldNamed_eq_some n f).1 hf
    simp only [hf] at h
    subst hn
    cases f <;> simp only [refundQueryResponse.store] at h <;> (try split at h) <;>
      cases h <;> simp [Field.tag]

theorem setElement_SuccessTime (r r1 : refundQueryResponse) (n t : String)
    (h : r.setElement n t = Except.ok r1) :
    r1.RefundQueryResponse.SuccessTime
      = if n = "refund_success_time_0" then t else r.RefundQueryResponse.SuccessTime := by
  unfold refundQueryResponse.setElement at h
  cases hf : fieldNamed n with
  | none =>
    have hn : n ≠ "refund_success_time_0" := by
      intro hn
      have := (fieldNamed_eq_some n Field.SuccessTime).2 hn
      simp [hf] at this
    simp only [hf, Except.ok.injEq] at h
    simp [hn, h]
  | some f =>
    have hn := (fieldNamed_eq_some n f).1 hf
    simp only [hf] at h
    subst hn
    cases f <;> simp only [refundQueryResponse.store] at h <;> (try split at h) <;>
      cases h <;> simp [Field.tag]

theorem setElement_ReceiveAccount (r r1 : refundQueryResponse) (n t : String)
    (h : r.setElement n t = Except.ok r1) :
    r1.RefundQueryResponse.ReceiveAccount
      = if n = "refund_recv_accout_0" then t else r.RefundQueryResponse.ReceiveAccount := by
  unfold refundQueryResponse.setElement at h
  cases hf : fieldNamed n with
  | none =>
    have hn : n ≠ "refund_recv_accout_0" := by
      intro hn
      have := (fieldNamed_eq_some n Field.ReceiveAccount).2 hn
      simp [hf] at this
    simp only [hf, Except.ok.injEq] at h
    simp [hn, h]
  | some f =>
    have hn := (fieldNamed_eq_some n f).1 hf
    simp only [hf] at h
    subst hn
    cases f <;> simp only [refundQueryResponse.store] at h <;> (try split at h) <;>
      cases h <;> simp [Field.tag]

/-- What storing one element does to `RefundFee`: the element `refund_fee`
must parse and its value is stored; any other element leaves the field alone. -/
theorem setElement_RefundFee (r r1 : refundQueryResponse) (n t : String)
    (h : r.setElement n t = Except.ok r1) :
    if n = "refund_fee" then copyValueInt t = Except.ok r1.RefundQueryResponse.RefundFee
    else r1.RefundQueryResponse.RefundFee = r.RefundQueryResponse.RefundFee := by
  unfold refundQueryResponse.setElement at h
  cases hf : fieldNamed n with
  | none =>
    have hn : n ≠ "refund_fee" := by
      intro hn
      have := (fieldNamed_eq_some n Field.RefundFee).2 hn
      simp [hf] at this
    simp only [hf, Except.ok.injEq] at h
    simp [hn, h]
  | some f =>
    have hn := (fieldNamed_eq_some n f).1 hf
    simp only [hf] at h
    subst hn
    cases f <;> simp only [refundQueryResponse.store] at h <;> (try split at h) <;>
      cases h <;> simp [Field.tag, *]

/-- After a successful decode `RefundFee` is the parsed text of the last
`refund_fee` element, or what it was before when the document has none. -/
theorem decodeFrom_RefundFee :
    ∀ (doc : XMLDoc) (r0 r : refundQueryResponse), decodeFrom r0 doc = Except.ok r →
      match doc.lastText "refund_fee" with
      | some t => copyValueInt t = Except.ok r.RefundQueryResponse.RefundFee
      | none => r.RefundQueryResponse.RefundFee = r0.RefundQueryResponse.RefundFee := by
  intro doc
  induction doc with
  | nil =>
    intro r0 r h
    simp only [decodeFrom, Except.ok.injEq] at h
    simp [XMLDoc.lastText, h]
  | cons e rest ih =>
    intro r0 r h
    obtain ⟨n, t⟩ := e
    simp only [decodeFrom] at h
    cases hs : r0.setElement n t with
    | error err => simp [hs] at h
    | ok r1 =>
      simp only [hs] at h
      have h1 := ih r1 r h
      have h2 := setElement_RefundFee r0 r1 n t hs
      simp only [XMLDoc.lastText]
      cases hl : XMLDoc.lastText rest "refund_fee" with
      | some v => simpa [hl] using h1
      | none =>
        simp only [hl] at h1
        by_cases hn : n = "refund_fee"
        · simp only [hn, if_true] at h2 ⊢
          rw [h1]
          exact h2
        · simp only [hn, if_false] at h2 ⊢
          rw [h1]
          exact h2

/-! ## Lemmas on `prepare` -/

/-- The text `MD5` is written as it is. -/
theorem xmlText_MD5 : xmlText "MD5" = "MD5" := by decide

/-- A condition that names no refund is rejected before anything is signed. -/
theorem prepare_of_no_identifier (env : Env) (s : RefundQuery) (key : String)
    (hOut : s.OutRefundNo = "") (hRef : s.RefundID = "") :
    s.prepare env key
      = ⟨⟨s, "", env.RandomString 32, "MD5"⟩, some errNoIdentifier, [Event.RandomString 32]⟩ := by
  simp [RefundQuery.prepare, hOut, hRef]

/-- A condition that names a refund is signed: the request carries the
signature of `signedParams`, and the error is the one of the signer. -/
theorem prepare_of_identifier (env : Env) (s : RefundQuery) (key : String)
    (h : ¬ (s.OutRefundNo = "" ∧ s.RefundID = "")) :
    s.prepare env key
      = ⟨⟨s, (env.SignByMD5 (signedParams s (env.RandomString 32)) key).1,
            env.RandomString 32, "MD5"⟩,
          (env.SignByMD5 (signedParams s (env.RandomString 32)) key).2,
          [Event.RandomString 32,
            Event.SignByMD5 (signedParams s (env.RandomString 32)) key]⟩ := by
  by_cases hOut : s.OutRefundNo = "" <;> by_cases hRef : s.RefundID = ""
  · exact absurd ⟨hOut, hRef⟩ h
  · simp [RefundQuery.prepare, signedParams, omitempty, StrMap.set, hOut, hRef]
  · simp [RefundQuery.prepare, signedParams, omitempty, StrMap.set, hOut, hRef]
  · simp [RefundQuery.prepare, signedParams, omitempty, StrMap.set, hOut, hRef]

/-- The events of `prepare` are one nonce and at most one signer call. -/
theorem prepare_events (env : Env) (s : RefundQuery) (key : String) :
    (s.prepare env key).events = [Event.RandomString 32] ∨
    (s.prepare env key).events
      = [Event.RandomString 32, Event.SignByMD5 (signedParams s (env.RandomString 32)) key] := by
  by_cases h : s.OutRefundNo = "" ∧ s.RefundID = ""
  · left
    rw [prepare_of_no_identifier env s key h.1 h.2]
  · right
    rw [prepare_of_identifier env s key h]

/-! ## The claims on `prepare` -/

/-- C2: for every condition in which both `OutRefundNo` and `RefundID` are
empty, and every key, `prepare` returns the validation error, and `Query`
returns a nil result with that same error; its only event is the nonce, so no
transport call is made. -/
theorem Query_rejects_no_identifier (env : Env) (s : RefundQuery) (key : String)
    (hOut : s.OutRefundNo = "") (hRef : s.RefundID = "") :
    (s.prepare env key).err = some errNoIdentifier ∧
    (s.Query env key).value = none ∧
    (s.Query env key).err = (s.prepare env key).err ∧
    (s.Query env key).events = [Event.RandomString 32] ∧
    (∀ url data, Event.PostXML url data ∉ (s.Query env key).events) := by
  have hp := prepare_of_no_identifier env s key hOut hRef
  simp [RefundQuery.Query, hp]

/-- C2, at a concrete input: the condition `byNothing` against a gateway that
would answer. -/
theorem Query_rejects_no_identifier_witness :
    byNothing.OutRefundNo = "" ∧ byNothing.RefundID = "" ∧
    (byNothing.Query (gatewayAnswering sampleByOrder) "key").value = none ∧
    (byNothing.Query (gatewayAnswering sampleByOrder) "key").events
      = [Event.RandomString 32] :=
  ⟨rfl, rfl,
    (Query_rejects_no_identifier (gatewayAnswering sampleByOrder) byNothing "key" rfl rfl).2.1,
    (Query_rejects_no_identifier (gatewayAnswering sampleByOrder) byNothing "key" rfl rfl).2.2.2.1⟩

/-- C3, evaluated at the failing input: the condition `byOutRefundNoHMAC` asks
for HMAC-SHA256, and for every collaborator and key the request of `prepare`
carries `sign_type` MD5, the signed parameter set carries `sign_type` MD5, and
the one signer called is `SignByMD5`. -/
theorem prepare_ignores_SignType_example (env : Env) (key : String) :
    byOutRefundNoHMAC.SignType = "HMAC-SHA256" ∧
    (byOutRefundNoHMAC.prepare env key).value.SignType = "MD5" ∧
    StrMap.get? (byOutRefundNoHMAC.prepare env key).value.xmlElements "sign_type"
      = some "MD5" ∧
    ∃ data : StrMap,
      (byOutRefundNoHMAC.prepare env key).events
        = [Event.RandomString 32, Event.SignByMD5 data key] ∧
      data.get? "sign_type" = some "MD5" := by
  have hp := prepare_of_identifier env byOutRefundNoHMAC key (by decide)
  refine ⟨rfl, ?_, ?_, signedParams byOutRefundNoHMAC (env.RandomString 32), ?_, ?_⟩
  · rw [hp]
  · rw [hp]
    simp [refundQuery.xmlElements, omitemptyElement, StrMap.get?, xmlText_MD5]
  · rw [hp]
  · simp [signedParams, omitempty, StrMap.get?, byOutRefundNoHMAC]

/-- C7, refuted at a concrete input: the condition `withoutAppID` has an empty
`AppID`, and the parameter set handed to the signer holds `appid` with the
empty string as its value. -/
theorem prepare_signs_empty_appid_example :
    withoutAppID.AppID = "" ∧
    ∃ data : StrMap,
      Event.SignByMD5 data "key"
        ∈ (withoutAppID.prepare (gatewayAnswering sampleByOrder) "key").events ∧
      ("appid", "") ∈ data :=
  ⟨rfl, [("appid", ""), ("mch_id", "1900000109"),
      ("nonce_str", "nnnnnnnnnnnnnnnnnnnnnnnnnnnnnnnn"), ("sign_type", "MD5"),
      ("out_refund_no", "20190705171118247841")],
    by decide, by decide⟩

/-- C7, as the code has it: in every parameter set that `prepare` hands to the
signer, `out_refund_no` and `refund_id` are absent when they are empty in the
condition and carry the value of the condition otherwise, while `appid` and
`mch_id` are always present with the value of the condition, also when that
value is empty; an entry with an empty value can only be `appid`, `mch_id` or
`nonce_str`. -/
theorem prepare_signed_set_entries (env : Env) (s : RefundQuery) (key : String)
    (data : StrMap) (k : String)
    (h : Event.SignByMD5 data k ∈ (s.prepare env key).events) :
    data.get? "out_refund_no" = (if s.OutRefundNo = "" then none else some s.OutRefundNo) ∧
    data.get? "refund_id" = (if s.RefundID = "" then none else some s.RefundID) ∧
    data.get? "appid" = some s.AppID ∧
    data.get? "mch_id" = some s.MchID ∧
    (∀ n v, (n, v) ∈ data → v = "" → n = "appid" ∨ n = "mch_id" ∨ n = "nonce_str") := by
  have hd : data = signedParams s (env.RandomString 32) := by
    rcases prepare_events env s key with he | he
    · rw [he] at h
      simp at h
    · rw [he] at h
      simp at h
      exact h.1
  subst hd
  by_cases hOut : s.OutRefundNo = "" <;> by_cases hRef : s.RefundID = "" <;>
    simp [signedParams, omitempty, StrMap.get?, hOut, hRef] <;>
    (intro n v hm hv; subst hv; aesop)

/-- C7 as amended, at a concrete input: the condition `byOutRefundNo`, whose
`RefundID` is empty. -/
theorem prepare_signed_set_entries_witness :
    Event.SignByMD5 (signedParams byOutRefundNo "nnnnnnnnnnnnnnnnnnnnnnnnnnnnnnnn") "key"
      ∈ (byOutRefundNo.prepare (gatewayAnswering sampleByOrder) "key").events ∧
    StrMap.get? (signedParams byOutRefundNo "nnnnnnnnnnnnnnnnnnnnnnnnnnnnnnnn") "refund_id"
      = none ∧
    StrMap.get? (signedParams byOutRefundNo "nnnnnnnnnnnnnnnnnnnnnnnnnnnnnnnn") "appid"
      = some "wx0000" :=
  ⟨by decide,
    (prepare_signed_set_entries (gatewayAnswering sampleByOrder) byOutRefundNo "key"
      (signedParams byOutRefundNo "nnnnnnnnnnnnnnnnnnnnnnnnnnnnnnnn") "key" (by decide)).2.1,
    (prepare_signed_set_entries (gatewayAnswering sampleByOrder) byOutRefundNo "key"
      (signedParams byOutRefundNo "nnnnnnnnnnnnnnnnnnnnnnnnnnnnnnnn") "key" (by decide)).2.2.1⟩

/-- C9, refuted at a concrete input: the refund number of `byControlChar` holds
U+0001, which XML forbids; `prepare` signs the refund number as it is, while
the serialised request carries it with U+FFFD in that place, so the signed
entry is not an element of the request. -/
theorem prepare_signs_unescaped_text_example :
    ¬ (byControlChar.OutRefundNo = "" ∧ byControlChar.RefundID = "") ∧
    Event.SignByMD5 (signedParams byControlChar "nnnnnnnnnnnnnnnnnnnnnnnnnnnnnnnn") "key"
      ∈ (byControlChar.prepare (gatewayAnswering sampleByOrder) "key").events ∧
    ("out_refund_no", "a\x01b")
      ∈ signedParams byControlChar "nnnnnnnnnnnnnnnnnnnnnnnnnnnnnnnn" ∧
    ("out_refund_no", "a\x01b")
      ∉ (byControlChar.prepare (gatewayAnswering sampleByOrder) "key").value.xmlElements ∧
    ("out_refund_no", "a\uFFFDb")
      ∈ (byControlChar.prepare (gatewayAnswering sampleByOrder) "key").value.xmlElements := by
  decide

/-- C9, as the code has it: for every condition that passes validation, the
parameter set `prepare` signs has no `sign` entry and has each name once; the
elements other than `sign` that the request serialises are exactly the signed
entries, each element carrying the text `encoding/xml` writes for the signed
value (`xmlText`: the value with every character XML forbids replaced by
U+FFFD), so a name is signed exactly when it is serialised, and when the
signed values hold only characters XML allows the signed entries are exactly
the elements other than `sign`, with the same values.  The signed `nonce_str`
and `sign_type` are the outer fields of the request, and the `Sign` and
`NonceStr` that the caller put in the condition do not change what is
signed. -/
theorem prepare_signs_what_it_serialises (env : Env) (s : RefundQuery) (key : String)
    (h : ¬ (s.OutRefundNo = "" ∧ s.RefundID = "")) :
    ∃ data : StrMap,
      (s.prepare env key).events = [Event.RandomString 32, Event.SignByMD5 data key] ∧
      data.get? "sign" = none ∧
      (data.map Prod.fst).Nodup ∧
      (∀ n w, ((n, w) ∈ (s.prepare env key).value.xmlElements ∧ n ≠ "sign")
        ↔ ∃ v, (n, v) ∈ data ∧ w = xmlText v) ∧
      (∀ n, n ≠ "sign" →
        ((∃ v, (n, v) ∈ data) ↔ ∃ w, (n, w) ∈ (s.prepare env key).value.xmlElements)) ∧
      ((∀ n v, (n, v) ∈ data → xmlText v = v) →
        ∀ n v, (n, v) ∈ data ↔ ((n, v) ∈ (s.prepare env key).value.xmlElements ∧ n ≠ "sign")) ∧
      data.get? "nonce_str" = some (s.prepare env key).value.NonceStr ∧
      data.get? "sign_type" = some (s.prepare env key).value.SignType ∧
      (∀ sign nonce : String,
        (RefundQuery.prepare env { s with Sign := sign, NonceStr := nonce } key).events
          = (s.prepare env key).events) := by
  have hp := prepare_of_identifier env s key h
  have hiff : ∀ n w, ((n, w) ∈ (s.prepare env key).value.xmlElements ∧ n ≠ "sign")
      ↔ ∃ v, (n, v) ∈ signedParams s (env.RandomString 32) ∧ w = xmlText v := by
    intro n w
    rw [hp]
    by_cases hOut : s.OutRefundNo = "" <;> by_cases hRef : s.RefundID = "" <;>
      simp [signedParams, refundQuery.xmlElements, omitempty, omitemptyElement, xmlText_MD5,
        hOut, hRef] <;>
      constructor <;> intro hm <;> aesop
  refine ⟨signedParams s (env.RandomString 32), ?_, ?_, ?_, hiff, ?_, ?_, ?_, ?_, ?_⟩
  · rw [hp]
  · by_cases hOut : s.OutRefundNo = "" <;> by_cases hRef : s.RefundID = "" <;>
      simp [signedParams, omitempty, StrMap.get?, hOut, hRef]
  · by_cases hOut : s.OutRefundNo = "" <;> by_cases hRef : s.RefundID = "" <;>
      simp [signedParams, omitempty, hOut, hRef]
  · intro n hn
    constructor
    · rintro ⟨v, hv⟩
      exact ⟨xmlText v, ((hiff n (xmlText v)).2 ⟨v, hv, rfl⟩).1⟩
    · rintro ⟨w, hw⟩
      obtain ⟨v, hv, _⟩ := (hiff n w).1 ⟨hw, hn⟩
      exact ⟨v, hv⟩
  · intro hclean n v
    constructor
    · intro hv
      exact (hiff n v).2 ⟨v, hv, (hclean n v hv).symm⟩
    · intro hv
      obtain ⟨v1, hv1, he⟩ := (hiff n v).1 hv
      rw [hclean n v1 hv1] at he
      rw [he]
      exact hv1
  · rw [hp]
    simp [signedParams, StrMap.get?]
  · rw [hp]
    simp [signedParams, StrMap.get?]
  · intro sign nonce
    rw [hp, prepare_of_identifier env { s with Sign := sign, NonceStr := nonce } key h]
    simp [signedParams]

/-- C9 as amended, at a concrete input: the condition `byOutRefundNo`. -/
theorem prepare_signs_what_it_serialises_witness :
    ¬ (byOutRefundNo.OutRefundNo = "" ∧ byOutRefundNo.RefundID = "") ∧
    ∃ data : StrMap,
      (byOutRefundNo.prepare (gatewayAnswering sampleByOrder) "key").events
        = [Event.RandomString 32, Event.SignByMD5 data "key"] ∧
      data.get? "sign" = none :=
  ⟨by decide,
    (prepare_signs_what_it_serialises (gatewayAnswering sampleByOrder) byOutRefundNo "key"
      (by decide)).imp fun _ h => ⟨h.1, h.2.1⟩⟩

/-! ## Lemmas on `Query` -/

/-- The run of `Query` when the gateway answers a document that decodes. -/
theorem Query_of_reply (env : Env) (s : RefundQuery) (key : String) (doc : XMLDoc)
    (r : refundQueryResponse) (hg : GatewayReplies env s key doc)
    (hd : decodeDoc doc = Except.ok r) :
    s.Query env key
      = match r.response.Check with
        | some err =>
          ⟨none, some err, (s.prepare env key).events ++
            [Event.PostXML (queryURL env) (s.prepare env key).value,
              Event.Println (transportReply env s key).1,
              Event.Unmarshal (transportReply env s key).1, Event.Check r.response]⟩
        | none =>
          ⟨some r.RefundQueryResponse, none, (s.prepare env key).events ++
            [Event.PostXML (queryURL env) (s.prepare env key).value,
              Event.Println (transportReply env s key).1,
              Event.Unmarshal (transportReply env s key).1, Event.Check r.response]⟩ := by
  obtain ⟨hp, ht, hx⟩ := hg
  unfold transportReply queryURL at ht hx
  have hu : Unmarshal env (env.PostXML (env.baseURL ++ refundQueryAPI)
      (s.prepare env key).value).1 = Except.ok r := by
    simp [Unmarshal, hx, hd]
  unfold RefundQuery.Query
  simp only [hp, ht, hu, transportReply, queryURL]
  cases r.response.Check <;> simp

/-- The check passes exactly on two SUCCESS codes. -/
theorem Check_eq_none (res : response) :
    res.Check = none ↔ res.ReturnCode = "SUCCESS" ∧ res.ResultCode = "SUCCESS" := by
  unfold response.Check
  by_cases h1 : res.ReturnCode = "SUCCESS" <;> by_cases h2 : res.ResultCode = "SUCCESS" <;>
    simp [h1, h2]

/-- The result of `Query` when the gateway answers a document that decodes
and whose two status codes are SUCCESS. -/
theorem Query_of_success (env : Env) (s : RefundQuery) (key : String) (doc : XMLDoc)
    (r : refundQueryResponse) (hg : GatewayReplies env s key doc)
    (hd : decodeDoc doc = Except.ok r)
    (h1 : r.response.ReturnCode = "SUCCESS") (h2 : r.response.ResultCode = "SUCCESS") :
    (s.Query env key).value = some r.RefundQueryResponse ∧ (s.Query env key).err = none := by
  have hc := (Check_eq_none r.response).2 ⟨h1, h2⟩
  rw [Query_of_reply env s key doc r hg hd, hc]
  exact ⟨rfl, rfl⟩

/-- The five ways a run of `Query` can go, by the first stage that fails. -/
theorem Query_cases (env : Env) (s : RefundQuery) (key : String) :
    (∃ e, (s.prepare env key).err = some e ∧
      s.Query env key = ⟨none, some e, (s.prepare env key).events⟩) ∨
    ((s.prepare env key).err = none ∧ ∃ e, (transportReply env s key).2 = some e ∧
      s.Query env key = ⟨none, some e, (s.prepare env key).events ++
        [Event.PostXML (queryURL env) (s.prepare env key).value,
          Event.Println (transportReply env s key).1]⟩) ∨
    ((s.prepare env key).err = none ∧ (transportReply env s key).2 = none ∧
      ∃ e, Unmarshal env (transportReply env s key).1 = Except.error e ∧
      s.Query env key = ⟨none, some e, (s.prepare env key).events ++
        [Event.PostXML (queryURL env) (s.prepare env key).value,
          Event.Println (transportReply env s key).1,
          Event.Unmarshal (transportReply env s key).1]⟩) ∨
    ((s.prepare env key).err = none ∧ (transportReply env s key).2 = none ∧
      ∃ r e, Unmarshal env (transportReply env s key).1 = Except.ok r ∧
      r.response.Check = some e ∧
      s.Query env key = ⟨none, some e, (s.prepare env key).events ++
        [Event.PostXML (queryURL env) (s.prepare env key).value,
          Event.Println (transportReply env s key).1,
          Event.Unmarshal (transportReply env s key).1, Event.Check r.response]⟩) ∨
    ((s.prepare env key).err = none ∧ (transportReply env s key).2 = none ∧
      ∃ r, Unmarshal env (transportReply env s key).1 = Except.ok r ∧
      r.response.Check = none ∧
      s.Query env key = ⟨some r.RefundQueryResponse, none, (s.prepare env key).events ++
        [Event.PostXML (queryURL env) (s.prepare env key).value,
          Event.Println (transportReply env s key).1,
          Event.Unmarshal (transportReply env s key).1, Event.Check r.response]⟩) := by
  unfold RefundQuery.Query transportReply queryURL
  cases hp : (s.prepare env key).err with
  | some e => simp [hp]
  | none =>
    cases ht : (env.PostXML (env.baseURL ++ refundQueryAPI) (s.prepare env key).value).2 with
    | some e => simp [hp, ht]
    | none =>
      cases hu : Unmarshal env
          (env.PostXML (env.baseURL ++ refundQueryAPI) (s.prepare env key).value).1 with
      | error e => simp [hp, ht, hu]
      | ok r =>
        cases hc : r.response.Check with
        | some e => simp [hp, ht, hu, hc]
        | none => simp [hp, ht, hu, hc]

/-- When `prepare` fails, `Query` returns its error and does nothing more. -/
theorem Query_of_prepare_error (env : Env) (s : RefundQuery) (key : String) (e : GoError)
    (hp : (s.prepare env key).err = some e) :
    s.Query env key = ⟨none, some e, (s.prepare env key).events⟩ := by
  rcases Query_cases env s key with ⟨e1, hp1, hq⟩ | ⟨hp1, _⟩ | ⟨hp1, _⟩ | ⟨hp1, _⟩ | ⟨hp1, _⟩
  · rw [hp] at hp1
    cases hp1
    exact hq
  all_goals rw [hp] at hp1
  all_goals cases hp1

/-- When `prepare` succeeds, the events of `Query` are those of `prepare`, then
the transport call, then the line written to standard output, then only the
decode and the check. -/
theorem Query_events_of_prepare_ok (env : Env) (s : RefundQuery) (key : String)
    (hp : (s.prepare env key).err = none) :
    ∃ rest, (s.Query env key).events = (s.prepare env key).events ++
        [Event.PostXML (queryURL env) (s.prepare env key).value,
          Event.Println (transportReply env s key).1] ++ rest ∧
      ∀ ev ∈ rest, (∃ d, ev = Event.Unmarshal d) ∨ (∃ r, ev = Event.Check r) := by
  rcases Query_cases env s key with ⟨e, hp1, _⟩ | ⟨_, e, _, hq⟩ | ⟨_, _, e, _, hq⟩ |
      ⟨_, _, r, e, _, _, hq⟩ | ⟨_, _, r, _, _, hq⟩
  · rw [hp] at hp1
    cases hp1
  · exact ⟨[], by rw [hq]; simp, by simp⟩
  · exact ⟨[Event.Unmarshal (transportReply env s key).1], by rw [hq]; simp, by simp⟩
  · exact ⟨[Event.Unmarshal (transportReply env s key).1, Event.Check r.response],
      by rw [hq]; simp, by simp⟩
  · exact ⟨[Event.Unmarshal (transportReply env s key).1, Event.Check r.response],
      by rw [hq]; simp, by simp⟩

/-! ## The claims on `Query` -/

/-- C1, refuted at a concrete input: the condition `byBoth` has both
identifiers, yet `prepare` returns no error and `Query` returns a result. -/
theorem prepare_accepts_both_identifiers_example :
    byBoth.OutRefundNo ≠ "" ∧ byBoth.RefundID ≠ "" ∧
    (byBoth.prepare (gatewayAnswering sampleByOrder) "key").err = none ∧
    (byBoth.Query (gatewayAnswering sampleByOrder) "key").value.isSome = true ∧
    (byBoth.Query (gatewayAnswering sampleByOrder) "key").err = none := by
  decide

/-- C1, as the code has it: for every condition in which both `OutRefundNo`
and `RefundID` are non-empty, and every key, `prepare` calls the signer with a
parameter set that holds both identifiers and returns the signature and the
error of the signer unchanged, so it fails exactly when the signer fails.
When the signer succeeds, `Query` makes the transport call with the signed
request; when the signer fails, `Query` returns a nil result with the error of
the signer and makes no transport call. -/
theorem prepare_signs_both_identifiers (env : Env) (s : RefundQuery) (key : String)
    (hOut : s.OutRefundNo ≠ "") (hRef : s.RefundID ≠ "") :
    ∃ data : StrMap,
      (s.prepare env key).events = [Event.RandomString 32, Event.SignByMD5 data key] ∧
      data.get? "out_refund_no" = some s.OutRefundNo ∧
      data.get? "refund_id" = some s.RefundID ∧
      (s.prepare env key).err = (env.SignByMD5 data key).2 ∧
      (s.prepare env key).value.Sign = (env.SignByMD5 data key).1 ∧
      ((env.SignByMD5 data key).2 = none → (s.prepare env key).err = none) ∧
      ((env.SignByMD5 data key).2 = none → ∃ rest,
        (s.Query env key).events = [Event.RandomString 32, Event.SignByMD5 data key,
          Event.PostXML (queryURL env) (s.prepare env key).value] ++ rest) ∧
      (∀ e, (env.SignByMD5 data key).2 = some e →
        s.Query env key
          = ⟨none, some e, [Event.RandomString 32, Event.SignByMD5 data key]⟩) := by
  have hp := prepare_of_identifier env s key (fun h => hOut h.1)
  have herr : (s.prepare env key).err
      = (env.SignByMD5 (signedParams s (env.RandomString 32)) key).2 := by rw [hp]
  have hev : (s.prepare env key).events = [Event.RandomString 32,
      Event.SignByMD5 (signedParams s (env.RandomString 32)) key] := by rw [hp]
  refine ⟨signedParams s (env.RandomString 32), hev, ?_, ?_, herr, ?_, ?_, ?_, ?_⟩
  · simp [signedParams, omitempty, StrMap.get?, hOut, hRef]
  · simp [signedParams, omitempty, StrMap.get?, hOut, hRef]
  · rw [hp]
  · intro h
    rw [herr]
    exact h
  · intro h
    obtain ⟨rest, hq, _⟩ := Query_events_of_prepare_ok env s key (herr.trans h)
    refine ⟨Event.Println (transportReply env s key).1 :: rest, ?_⟩
    rw [hq, hev]
    simp
  · intro e h
    rw [Query_of_prepare_error env s key e (herr.trans h), hev]

/-- C1 as amended, at a concrete input: the condition `byBoth`. -/
theorem prepare_signs_both_identifiers_witness :
    byBoth.OutRefundNo ≠ "" ∧ byBoth.RefundID ≠ "" ∧
    ∃ data : StrMap,
      (byBoth.prepare (gatewayAnswering sampleByOrder) "key").events
        = [Event.RandomString 32, Event.SignByMD5 data "key"] ∧
      data.get? "out_refund_no" = some byBoth.OutRefundNo ∧
      data.get? "refund_id" = some byBoth.RefundID :=
  ⟨by decide, by decide,
    (prepare_signs_both_identifiers (gatewayAnswering sampleByOrder) byBoth "key"
      (by decide) (by decide)).imp fun _ h => ⟨h.1, h.2.1, h.2.2.1⟩⟩

/-- C6: for every condition, key and behaviour of the collaborators, `Query`
runs `prepare`, the transport call, the XML decode and `Check` in that order
and stops at the first that fails: it then returns a nil result with the
error of that stage, unchanged, and the events show that no later stage ran
(`prepare` itself only draws the nonce and calls the signer).  The result is
non-nil exactly when all four stages succeed, and then there is no error. -/
theorem Query_stops_at_first_failure (env : Env) (s : RefundQuery) (key : String) :
    (∀ ev ∈ (s.prepare env key).events,
      (∃ n, ev = Event.RandomString n) ∨ (∃ d k, ev = Event.SignByMD5 d k)) ∧
    (∀ e, (s.prepare env key).err = some e →
      s.Query env key = ⟨none, some e, (s.prepare env key).events⟩) ∧
    ((s.prepare env key).err = none → ∀ e, (transportReply env s key).2 = some e →
      s.Query env key = ⟨none, some e, (s.prepare env key).events ++
        [Event.PostXML (queryURL env) (s.prepare env key).value,
          Event.Println (transportReply env s key).1]⟩) ∧
    ((s.prepare env key).err = none → (transportReply env s key).2 = none →
      ∀ e, Unmarshal env (transportReply env s key).1 = Except.error e →
      s.Query env key = ⟨none, some e, (s.prepare env key).events ++
        [Event.PostXML (queryURL env) (s.prepare env key).value,
          Event.Println (transportReply env s key).1,
          Event.Unmarshal (transportReply env s key).1]⟩) ∧
    ((s.prepare env key).err = none → (transportReply env s key).2 = none →
      ∀ r e, Unmarshal env (transportReply env s key).1 = Except.ok r →
      r.response.Check = some e →
      s.Query env key = ⟨none, some e, (s.prepare env key).events ++
        [Event.PostXML (queryURL env) (s.prepare env key).value,
          Event.Println (transportReply env s key).1,
          Event.Unmarshal (transportReply env s key).1, Event.Check r.response]⟩) ∧
    ((s.prepare env key).err = none → (transportReply env s key).2 = none →
      ∀ r, Unmarshal env (transportReply env s key).1 = Except.ok r →
      r.response.Check = none →
      s.Query env key = ⟨some r.RefundQueryResponse, none, (s.prepare env key).events ++
        [Event.PostXML (queryURL env) (s.prepare env key).value,
          Event.Println (transportReply env s key).1,
          Event.Unmarshal (transportReply env s key).1, Event.Check r.response]⟩) ∧
    ((s.Query env key).value ≠ none ↔
      ((s.prepare env key).err = none ∧ (transportReply env s key).2 = none ∧
        ∃ r, Unmarshal env (transportReply env s key).1 = Except.ok r ∧
          r.response.Check = none)) ∧
    ((s.Query env key).value = none → (s.Query env key).err ≠ none) ∧
    ((s.Query env key).value ≠ none → (s.Query env key).err = none) := by
  refine ⟨?_, ?_⟩
  · intro ev hev
    rcases prepare_events env s key with he | he <;> rw [he] at hev <;> simp at hev
    · exact Or.inl ⟨32, hev⟩
    · rcases hev with hev | hev
      · exact Or.inl ⟨32, hev⟩
      · exact Or.inr ⟨_, _, hev⟩
  · rcases Query_cases env s key with ⟨e, hp, hq⟩ | ⟨hp, e, ht, hq⟩ | ⟨hp, ht, e, hu, hq⟩ |
        ⟨hp, ht, r, e, hu, hc, hq⟩ | ⟨hp, ht, r, hu, hc, hq⟩ <;>
      rw [hq] <;> simp_all <;> (intro r1 e1 h1 h2; subst h1; simp_all)

/-- C6, at a concrete input: with an unreachable gateway the transport error
comes back unchanged and nothing is decoded or checked. -/
theorem Query_stops_at_first_failure_witness :
    byOutRefundNo.Query gatewayUnreachable "key"
      = ⟨none, some (GoError.foreign "dial tcp: i/o timeout"),
          (byOutRefundNo.prepare gatewayUnreachable "key").events ++
            [Event.PostXML (queryURL gatewayUnreachable)
                (byOutRefundNo.prepare gatewayUnreachable "key").value,
              Event.Println (transportReply gatewayUnreachable byOutRefundNo "key").1]⟩ :=
  (Query_stops_at_first_failure gatewayUnreachable byOutRefundNo "key").2.2.1
    (by decide) (GoError.foreign "dial tcp: i/o timeout") (by decide)

/-- C10, refuted at a concrete input: a query that succeeds writes the response
bytes to standard output, and a query whose transport fails writes a line as
well. -/
theorem Query_writes_stdout_example :
    stdoutLines (byOutRefundNo.Query (gatewayAnswering sampleByOrder) "key").events
      = ["<xml/>"] ∧
    (byOutRefundNo.Query (gatewayAnswering sampleByOrder) "key").value.isSome = true ∧
    stdoutLines (byOutRefundNo.Query gatewayUnreachable "key").events = [""] ∧
    (byOutRefundNo.Query gatewayUnreachable "key").value = none := by
  decide

/-- C10, as the code has it: for every call of `Query` the events are, in this
order, one nonce of length 32, the signer call when the condition names a
refund, and, exactly when `prepare` succeeds, one transport call followed at
once by one line written to standard output that holds the bytes the
transport returned, whether the transport succeeded or failed; after that
only the decode and the check run.  When `prepare` fails the events are those
of `prepare` and nothing is written. -/
theorem Query_effects (env : Env) (s : RefundQuery) (key : String) :
    nonceCalls (s.Query env key).events = [32] ∧
    (signerCalls (s.Query env key).events).length ≤ 1 ∧
    transportCalls (s.Query env key).events ≤ 1 ∧
    transportCalls (s.Query env key).events
      = (if (s.prepare env key).err = none then 1 else 0) ∧
    stdoutLines (s.Query env key).events
      = (if (s.prepare env key).err = none then [(transportReply env s key).1] else []) ∧
    ((s.prepare env key).events = [Event.RandomString 32] ∨
      ∃ data, (s.prepare env key).events
        = [Event.RandomString 32, Event.SignByMD5 data key]) ∧
    ((s.prepare env key).err ≠ none →
      (s.Query env key).events = (s.prepare env key).events) ∧
    ((s.prepare env key).err = none →
      ∃ rest, (s.Query env key).events = (s.prepare env key).events ++
          [Event.PostXML (queryURL env) (s.prepare env key).value,
            Event.Println (transportReply env s key).1] ++ rest ∧
        ∀ ev ∈ rest, (∃ d, ev = Event.Unmarshal d) ∨ (∃ r, ev = Event.Check r)) := by
  have hcount : nonceCalls (s.Query env key).events = [32] ∧
      (signerCalls (s.Query env key).events).length ≤ 1 ∧
      transportCalls (s.Query env key).events ≤ 1 ∧
      transportCalls (s.Query env key).events
        = (if (s.prepare env key).err = none then 1 else 0) ∧
      stdoutLines (s.Query env key).events
        = (if (s.prepare env key).err = none then [(transportReply env s key).1]
            else []) := by
    rcases Query_cases env s key with ⟨e, hp, hq⟩ | ⟨hp, e, ht, hq⟩ | ⟨hp, ht, e, hu, hq⟩ |
        ⟨hp, ht, r, e, hu, hc, hq⟩ | ⟨hp, ht, r, hu, hc, hq⟩ <;>
      rw [hq] <;>
      rcases prepare_events env s key with he | he <;>
      simp [he, hp, nonceCalls, signerCalls, transportCalls, stdoutLines]
  refine ⟨hcount.1, hcount.2.1, hcount.2.2.1, hcount.2.2.2.1, hcount.2.2.2.2, ?_, ?_,
    Query_events_of_prepare_ok env s key⟩
  · rcases prepare_events env s key with he | he
    · exact Or.inl he
    · exact Or.inr ⟨_, he⟩
  · intro hne
    cases hp : (s.prepare env key).err with
    | none => exact absurd hp hne
    | some e => rw [Query_of_prepare_error env s key e hp]

/-- C4, refuted at the documented two-record sample: its `refund_fee_0` is 1
and its `refund_fee` is 4, and the result of `Query` has `RefundFee` 4, the
total, and not 1. -/
theorem Query_RefundFee_total_example :
    XMLDoc.lastText sampleByOrder "refund_fee_0" = some "1" ∧
    XMLDoc.lastText sampleByOrder "refund_fee" = some "4" ∧
    (byOutRefundNo.Query (gatewayAnswering sampleByOrder) "key").value.map
      (fun res => res.RefundFee) = some 4 ∧
    (byOutRefundNo.Query (gatewayAnswering sampleByOrder) "key").value.map
      (fun res => res.RefundFee) ≠ some 1 := by
  decide

/-- C4, as the code has it: for every decoded response whose two status codes
are SUCCESS, the `RefundFee` of the result of `Query` is the parsed text of
the element `refund_fee`, the total refunded amount (0 when the response has
no such element), whatever `refund_fee_0` holds; on the documented two-record
sample the result has `RefundID` 50000201152019070510323842871, `RefundFee` 4
and `RefundStatus` SUCCESS. -/
theorem Query_RefundFee_is_refund_fee :
    (∀ (env : Env) (s : RefundQuery) (key : String) (doc : XMLDoc) (r : refundQueryResponse),
      GatewayReplies env s key doc → decodeDoc doc = Except.ok r →
      r.response.ReturnCode = "SUCCESS" → r.response.ResultCode = "SUCCESS" →
      ∃ res, (s.Query env key).value = some res ∧
        match doc.lastText "refund_fee" with
        | some t => copyValueInt t = Except.ok res.RefundFee
        | none => res.RefundFee = 0) ∧
    (∀ (env : Env) (s : RefundQuery) (key : String),
      GatewayReplies env s key sampleByOrder →
      ∃ res, (s.Query env key).value = some res ∧
        res.RefundID = "50000201152019070510323842871" ∧ res.RefundFee = 4 ∧
        res.RefundStatus = RefundStatusSuccess) := by
  constructor
  · intro env s key doc r hg hd h1 h2
    refine ⟨r.RefundQueryResponse, (Query_of_success env s key doc r hg hd h1 h2).1, ?_⟩
    exact decodeFrom_RefundFee doc refundQueryResponse.zero r hd
  · intro env s key hg
    have hd : decodeDoc sampleByOrder = Except.ok
        ⟨⟨"SUCCESS", "OK", "SUCCESS", "", ""⟩,
          ⟨"000000", "000000", "GwUbVYPcPZz0T8Lg", "000000", "4200000289201907058815070594",
            "20190705170959530641", "50000201152019070510323842871", "20190705171118247841",
            6, 4, "SUCCESS", "2019-07-05 17:15:51", "工商银行借记卡3234"⟩⟩ := by rfl
    exact ⟨_, (Query_of_success env s key sampleByOrder _ hg hd rfl rfl).1, rfl, rfl, rfl⟩

/-- C4 as amended, at a concrete input: the condition `byOutRefundNo` against a
gateway that answers the two-record sample. -/
theorem Query_RefundFee_is_refund_fee_witness :
    GatewayReplies (gatewayAnswering sampleByOrder) byOutRefundNo "key" sampleByOrder ∧
    ∃ res, (byOutRefundNo.Query (gatewayAnswering sampleByOrder) "key").value = some res ∧
      res.RefundID = "50000201152019070510323842871" ∧ res.RefundFee = 4 ∧
      res.RefundStatus = RefundStatusSuccess :=
  ⟨by decide,
    Query_RefundFee_is_refund_fee.2 (gatewayAnswering sampleByOrder) byOutRefundNo "key"
      (by decide)⟩

/-- C5, refuted at a concrete input: the response `sampleFrozen` has two
SUCCESS codes and the status FROZEN, which is none of the four constants, and
`Query` returns no error and a result that carries FROZEN. -/
theorem Query_accepts_unknown_status_example :
    XMLDoc.lastText sampleFrozen "return_code" = some "SUCCESS" ∧
    XMLDoc.lastText sampleFrozen "result_code" = some "SUCCESS" ∧
    XMLDoc.lastText sampleFrozen "refund_status_0" = some "FROZEN" ∧
    (byOutRefundNo.Query (gatewayAnswering sampleFrozen) "key").err = none ∧
    (byOutRefundNo.Query (gatewayAnswering sampleFrozen) "key").value.map
      (fun res => res.RefundStatus) = some "FROZEN" := by
  decide

/-- C5, as the code has it: for every decoded response whose two status codes
are SUCCESS and whose `refund_status_0` text is none of SUCCESS, CHANGE,
REFUNDCLOSE, PROCESSING, `Query` returns no error and a result whose
`RefundStatus` is that text, unchanged. -/
theorem Query_returns_unknown_status (env : Env) (s : RefundQuery) (key : String)
    (doc : XMLDoc) (r : refundQueryResponse) (t : String)
    (hg : GatewayReplies env s key doc) (hd : decodeDoc doc = Except.ok r)
    (h1 : r.response.ReturnCode = "SUCCESS") (h2 : r.response.ResultCode = "SUCCESS")
    (ht : doc.lastText "refund_status_0" = some t)
    (_hu : t ≠ RefundStatusSuccess ∧ t ≠ RefundStatusChange ∧ t ≠ RefundStatusClose
      ∧ t ≠ RefundStatusProcessing) :
    (s.Query env key).err = none ∧
    ∃ res, (s.Query env key).value = some res ∧ res.RefundStatus = t := by
  have hq := Query_of_success env s key doc r hg hd h1 h2
  refine ⟨hq.2, r.RefundQueryResponse, hq.1, ?_⟩
  have hf := decodeFrom_string_field (fun x => x.RefundQueryResponse.RefundStatus)
    "refund_status_0" setElement_RefundStatus doc refundQueryResponse.zero r hd
  simpa [ht] using hf

/-- C5 as amended, at a concrete input: the response `sampleFrozen`. -/
theorem Query_returns_unknown_status_witness :
    (byOutRefundNo.Query (gatewayAnswering sampleFrozen) "key").err = none ∧
    ∃ res, (byOutRefundNo.Query (gatewayAnswering sampleFrozen) "key").value = some res ∧
      res.RefundStatus = "FROZEN" :=
  Query_returns_unknown_status (gatewayAnswering sampleFrozen) byOutRefundNo "key"
    sampleFrozen
    ⟨⟨"SUCCESS", "", "SUCCESS", "", ""⟩,
      ⟨"", "", "", "", "", "", "50000201152019070510323842871", "", 0, 1, "FROZEN", "", ""⟩⟩
    "FROZEN" (by decide) (by rfl) rfl rfl (by decide) (by decide)

/-- C8: for every decoded response whose two status codes are SUCCESS, the
`RefundID`, `OutRefundNo`, `RefundStatus`, `SuccessTime` and `ReceiveAccount`
of the result of `Query` are the texts of the elements `refund_id_0`,
`out_refund_no_0`, `refund_status_0`, `refund_success_time_0` and
`refund_recv_accout_0` (of the last one when an element is repeated, empty
when it is missing), whatever the other elements of the response hold; on the documented single-refund sample the
result has `RefundFee` 1, `RefundStatus` SUCCESS and `ReceiveAccount`
工商银行借记卡3234. -/
theorem Query_reads_record_zero :
    (∀ (env : Env) (s : RefundQuery) (key : String) (doc : XMLDoc) (r : refundQueryResponse),
      GatewayReplies env s key doc → decodeDoc doc = Except.ok r →
      r.response.ReturnCode = "SUCCESS" → r.response.ResultCode = "SUCCESS" →
      ∃ res, (s.Query env key).value = some res ∧
        res.RefundID = (doc.lastText "refund_id_0").getD "" ∧
        res.OutRefundNo = (doc.lastText "out_refund_no_0").getD "" ∧
        res.RefundStatus = (doc.lastText "refund_status_0").getD "" ∧
        res.SuccessTime = (doc.lastText "refund_success_time_0").getD "" ∧
        res.ReceiveAccount = (doc.lastText "refund_recv_accout_0").getD "") ∧
    (∀ (env : Env) (s : RefundQuery) (key : String),
      GatewayReplies env s key sampleByRefundNo →
      ∃ res, (s.Query env key).value = some res ∧
        res.RefundFee = 1 ∧ res.RefundStatus = RefundStatusSuccess ∧
        res.ReceiveAccount = "工商银行借记卡3234") := by
  constructor
  · intro env s key doc r hg hd h1 h2
    refine ⟨r.RefundQueryResponse, (Query_of_success env s key doc r hg hd h1 h2).1,
      ?_, ?_, ?_, ?_, ?_⟩
    · exact decodeFrom_string_field (fun x => x.RefundQueryResponse.RefundID)
        "refund_id_0" setElement_RefundID doc refundQueryResponse.zero r hd
    · exact decodeFrom_string_field (fun x => x.RefundQueryResponse.OutRefundNo)
        "out_refund_no_0" setElement_OutRefundNo doc refundQueryResponse.zero r hd
    · exact decodeFrom_string_field (fun x => x.RefundQueryResponse.RefundStatus)
        "refund_status_0" setElement_RefundStatus doc refundQueryResponse.zero r hd
    · exact decodeFrom_string_field (fun x => x.RefundQueryResponse.SuccessTime)
        "refund_success_time_0" setElement_SuccessTime doc refundQueryResponse.zero r hd
    · exact decodeFrom_string_field (fun x => x.RefundQueryResponse.ReceiveAccount)
        "refund_recv_accout_0" setElement_ReceiveAccount doc refundQueryResponse.zero r hd
  · intro env s key hg
    have hd : decodeDoc sampleByRefundNo = Except.ok
        ⟨⟨"SUCCESS", "OK", "SUCCESS", "", ""⟩,
          ⟨"000000", "000000", "ORXm2pdxYtc2VoUd", "000000", "4200000289201907058815070594",
            "20190705170959530641", "50000201152019070510323842871", "20190705171118247841",
            6, 1, "SUCCESS", "2019-07-05 17:15:51", "工商银行借记卡3234"⟩⟩ := by rfl
    exact ⟨_, (Query_of_success env s key sampleByRefundNo _ hg hd rfl rfl).1, rfl, rfl, rfl⟩

/-- C8, at a concrete input: the condition `byOutRefundNo` against a gateway
that answers the single-refund sample. -/
theorem Query_reads_record_zero_witness :
    GatewayReplies (gatewayAnswering sampleByRefundNo) byOutRefundNo "key" sampleByRefundNo ∧
    ∃ res, (byOutRefundNo.Query (gatewayAnswering sampleByRefundNo) "key").value = some res ∧
      res.RefundID = "50000201152019070510323842871" ∧
      res.ReceiveAccount = "工商银行借记卡3234" :=
  ⟨by decide,
    (Query_reads_record_zero.1 (gatewayAnswering sampleByRefundNo) byOutRefundNo "key"
      sampleByRefundNo
      ⟨⟨"SUCCESS", "OK", "SUCCESS", "", ""⟩,
        ⟨"000000", "000000", "ORXm2pdxYtc2VoUd", "000000", "4200000289201907058815070594",
          "20190705170959530641", "50000201152019070510323842871", "20190705171118247841",
          6, 1, "SUCCESS", "2019-07-05 17:15:51", "工商银行借记卡3234"⟩⟩
      (by decide) (by rfl) rfl rfl).imp
      fun _ h => ⟨h.1, h.2.1.trans (by decide), h.2.2.2.2.2.trans (by decide)⟩⟩

end Payment
